import Mathlib

/-!
Shallow embedding of `backend/optimization_engine.py` (the AI Optimization
Engine): the metrics data model, score aggregation and grading, brand-mention
detection, the response-position heuristic, content chunking, semantic query
generation, the simulated query tester, and the public entry points
`analyze_brand_comprehensive`, `analyze_queries` and
`calculate_optimization_metrics_fast`, together with theorems settling the
specification claims.

Modelling conventions:
* Python floats are modeled as exact rationals (`ℚ`); Python `round(x, n)`
  is modeled as decimal round-half-to-even on `ℚ`.
* The integers the source derives from `hashlib.md5(...).hexdigest()[:k]`
  are modeled by an abstract deterministic oracle (`Md5Oracle`): every claim
  depends only on the residues of those integers modulo small constants,
  never on concrete digest values.
* The engine is modeled in its degraded configuration (no chat-completion
  providers configured, sentence-transformer model absent), the
  configuration the claims under test exercise; external collaborators
  (LLM clients, the NLTK tagger) appear as oracle parameters.
-/

namespace AIOpt

/-- Python's binary `max` on rationals, kept kernel-computable. -/
def pyMax (a b : ℚ) : ℚ := if a ≤ b then b else a

/-- Python's binary `min` on rationals, kept kernel-computable. -/
def pyMin (a b : ℚ) : ℚ := if a ≤ b then a else b

theorem pyMax_le {a b c : ℚ} (h1 : a ≤ c) (h2 : b ≤ c) : pyMax a b ≤ c := by
  rw [pyMax]; split_ifs <;> assumption

theorem le_pyMax_left (a b : ℚ) : a ≤ pyMax a b := by
  rw [pyMax]; split_ifs with h
  · exact h
  · exact le_rfl

theorem le_pyMax_right (a b : ℚ) : b ≤ pyMax a b := by
  rw [pyMax]; split_ifs with h
  · exact le_rfl
  · linarith

theorem pyMin_le_left (a b : ℚ) : pyMin a b ≤ a := by
  rw [pyMin]; split_ifs with h
  · exact le_rfl
  · linarith

theorem pyMin_le_right (a b : ℚ) : pyMin a b ≤ b := by
  rw [pyMin]; split_ifs with h
  · exact h
  · exact le_rfl

theorem le_pyMin {c a b : ℚ} (h1 : c ≤ a) (h2 : c ≤ b) : c ≤ pyMin a b := by
  rw [pyMin]; split_ifs <;> assumption

theorem pyMax_eq_right {a b : ℚ} (h : a ≤ b) : pyMax a b = b := by
  rw [pyMax, if_pos h]

theorem pyMax_mono_right {a b b' : ℚ} (h : b ≤ b') : pyMax a b ≤ pyMax a b' :=
  pyMax_le (le_pyMax_left _ _) (le_trans h (le_pyMax_right _ _))

theorem pyMin_mono_right {a b b' : ℚ} (h : b ≤ b') : pyMin a b ≤ pyMin a b' :=
  le_pyMin (pyMin_le_left _ _) (le_trans (pyMin_le_right _ _) h)

/-- Python `max(0.0, min(1.0, x))`. -/
def clamp01 (x : ℚ) : ℚ := pyMax 0 (pyMin 1 x)

/-- Python `int(x)`: truncation toward zero. -/
def pyTrunc (q : ℚ) : ℤ := if q < 0 then -⌊-q⌋ else ⌊q⌋

/-- Round a rational to the nearest integer, ties to even (the rounding rule
of Python's `round`). -/
def pyRoundHE (q : ℚ) : ℤ :=
  if q - (⌊q⌋ : ℚ) < 1 / 2 then ⌊q⌋
  else if 1 / 2 < q - (⌊q⌋ : ℚ) then ⌊q⌋ + 1
  else if ⌊q⌋ % 2 = 0 then ⌊q⌋ else ⌊q⌋ + 1

/-- Python `round(x, n)` on exact rationals. -/
def pyRound (q : ℚ) (n : ℕ) : ℚ := (pyRoundHE (q * (10 : ℚ) ^ n) : ℚ) / (10 : ℚ) ^ n

/-- Abstract model of `int(hashlib.md5(s.encode()).hexdigest()[:k], 16)` for
the three prefix widths the engine uses (k = 2, 4, 6).  A fixed, deterministic
function of the hashed string; the claims only use its residues modulo small
constants. -/
structure Md5Oracle where
  hex2 : String → ℕ
  hex4 : String → ℕ
  hex6 : String → ℕ

/-- The `OptimizationMetrics` dataclass (source lines 27-56): 12 core
metrics, 5 derived fields and the summary fields, with the dataclass
defaults. -/
structure OptimizationMetrics where
  chunk_retrieval_frequency : ℚ := 0
  embedding_relevance_score : ℚ := 0
  attribution_rate : ℚ := 0
  ai_citation_count : ℤ := 0
  vector_index_presence_ratio : ℚ := 0
  retrieval_confidence_score : ℚ := 0
  rrf_rank_contribution : ℚ := 0
  llm_answer_coverage : ℚ := 0
  ai_model_crawl_success_rate : ℚ := 0
  semantic_density_score : ℚ := 0
  zero_click_surface_presence : ℚ := 0
  machine_validated_authority : ℚ := 0
  brand_strength_score : ℚ := 0
  brand_visibility_potential : ℚ := 0
  content_quality_score : ℚ := 0
  industry_relevance : ℚ := 0
  amanda_crast_score : ℚ := 0
  overall_score : ℚ := 0
  performance_grade : String := ""
  performance_summary : Option ℚ := none

/-- `OptimizationMetrics.get_overall_score` (source lines 61-89): fixed
weight table over the 12 core metrics, `ai_citation_count` normalized by 40
and clamped to 1 before weighting, result clamped to [0, 1].  Terms appear
in the dictionary's iteration order. -/
def getOverallScore (m : OptimizationMetrics) : ℚ :=
  let score :=
    m.attribution_rate * (15 / 100)
    + pyMin 1 ((m.ai_citation_count : ℚ) / 40) * (10 / 100)
    + m.embedding_relevance_score * (12 / 100)
    + m.chunk_retrieval_frequency * (10 / 100)
    + m.semantic_density_score * (10 / 100)
    + m.llm_answer_coverage * (12 / 100)
    + m.zero_click_surface_presence * (8 / 100)
    + m.machine_validated_authority * (13 / 100)
    + m.vector_index_presence_ratio * (4 / 100)
    + m.retrieval_confidence_score * (3 / 100)
    + m.rrf_rank_contribution * (2 / 100)
    + m.ai_model_crawl_success_rate * (1 / 100)
  clamp01 score

/-- The score → letter threshold chain that both `get_performance_grade`
(source lines 94-115) and `_get_consistent_grade` (source lines 2510-2531)
spell out verbatim; the two inline copies are identical, so they are shared
here. -/
def gradeChain (s : ℚ) : String :=
  if s ≥ 9 / 10 then "A+"
  else if s ≥ 85 / 100 then "A"
  else if s ≥ 8 / 10 then "A-"
  else if s ≥ 75 / 100 then "B+"
  else if s ≥ 7 / 10 then "B"
  else if s ≥ 65 / 100 then "B-"
  else if s ≥ 6 / 10 then "C+"
  else if s ≥ 55 / 100 then "C"
  else if s ≥ 5 / 10 then "C-"
  else if s ≥ 4 / 10 then "D"
  else "F"

/-- `OptimizationMetrics.get_performance_grade` (source lines 91-115):
threshold chain over the overall score. -/
def getPerformanceGrade (m : OptimizationMetrics) : String :=
  gradeChain (getOverallScore m)

/-- The brand-hash jitter of `_get_consistent_grade` (source lines
2506-2508): `h = int(md5((brand or 'x').lower()).hexdigest()[:2], 16)`,
`jitter = (h % 3) / 1000`. -/
def gradeJitter (md5 : Md5Oracle) (brandName : String) : ℚ :=
  ((md5.hex2 (if brandName = "" then "x" else brandName).toLower % 3 : ℕ) : ℚ) / 1000

/-- `_get_consistent_grade` (source lines 2504-2531): clamp the jittered
score to [0, 1] and grade it with the same threshold chain as
`get_performance_grade`. -/
def getConsistentGrade (md5 : Md5Oracle) (brandName : String) (overallScore : ℚ) : String :=
  gradeChain (clamp01 (overallScore + gradeJitter md5 brandName))

/-- The fixed 11-symbol grade scale, best first. -/
def gradeScale : List String :=
  ["A+", "A", "A-", "B+", "B", "B-", "C+", "C", "C-", "D", "F"]

/-- Rank of a letter grade on the 11-symbol scale (A+ best = 10, F = 0);
specification-side apparatus for comparing grades. -/
def gradeRank (g : String) : ℕ :=
  if g = "A+" then 10 else if g = "A" then 9 else if g = "A-" then 8
  else if g = "B+" then 7 else if g = "B" then 6 else if g = "B-" then 5
  else if g = "C+" then 4 else if g = "C" then 3 else if g = "C-" then 2
  else if g = "D" then 1 else 0

/-- Numeric mirror of the shared grade threshold chain: the index of the
grade assigned to a score. -/
def scoreLevel (s : ℚ) : ℕ :=
  if s ≥ 9 / 10 then 10
  else if s ≥ 85 / 100 then 9
  else if s ≥ 8 / 10 then 8
  else if s ≥ 75 / 100 then 7
  else if s ≥ 7 / 10 then 6
  else if s ≥ 65 / 100 then 5
  else if s ≥ 6 / 10 then 4
  else if s ≥ 55 / 100 then 3
  else if s ≥ 5 / 10 then 2
  else if s ≥ 4 / 10 then 1
  else 0

/-- The grade thresholds, listed from worst to best: `thresholdAt k` is the
least score graded at level `k` (level 0 = "F" has no threshold; indices
past 10 yield the sentinel 2, above every score). -/
def thresholdAt : ℕ → ℚ
  | 0 => 0
  | 1 => 4 / 10
  | 2 => 5 / 10
  | 3 => 55 / 100
  | 4 => 6 / 10
  | 5 => 65 / 100
  | 6 => 7 / 10
  | 7 => 75 / 100
  | 8 => 8 / 10
  | 9 => 85 / 100
  | 10 => 9 / 10
  | _ => 2

theorem gradeRank_gradeChain (s : ℚ) : gradeRank (gradeChain s) = scoreLevel s := by
  rw [gradeChain, scoreLevel]
  by_cases h1 : s ≥ 9 / 10
  · rw [if_pos h1, if_pos h1]; decide
  · rw [if_neg h1, if_neg h1]
    by_cases h2 : s ≥ 85 / 100
    · rw [if_pos h2, if_pos h2]; decide
    · rw [if_neg h2, if_neg h2]
      by_cases h3 : s ≥ 8 / 10
      · rw [if_pos h3, if_pos h3]; decide
      · rw [if_neg h3, if_neg h3]
        by_cases h4 : s ≥ 75 / 100
        · rw [if_pos h4, if_pos h4]; decide
        · rw [if_neg h4, if_neg h4]
          by_cases h5 : s ≥ 7 / 10
          · rw [if_pos h5, if_pos h5]; decide
          · rw [if_neg h5, if_neg h5]
            by_cases h6 : s ≥ 65 / 100
            · rw [if_pos h6, if_pos h6]; decide
            · rw [if_neg h6, if_neg h6]
              by_cases h7 : s ≥ 6 / 10
              · rw [if_pos h7, if_pos h7]; decide
              · rw [if_neg h7, if_neg h7]
                by_cases h8 : s ≥ 55 / 100
                · rw [if_pos h8, if_pos h8]; decide
                · rw [if_neg h8, if_neg h8]
                  by_cases h9 : s ≥ 5 / 10
                  · rw [if_pos h9, if_pos h9]; decide
                  · rw [if_neg h9, if_neg h9]
                    by_cases h10 : s ≥ 4 / 10
                    · rw [if_pos h10, if_pos h10]; decide
                    · rw [if_neg h10, if_neg h10]; decide

theorem gradeChain_mem_scale (s : ℚ) : gradeChain s ∈ gradeScale := by
  rw [gradeChain]
  by_cases h1 : s ≥ 9 / 10
  · rw [if_pos h1]; decide
  · rw [if_neg h1]
    by_cases h2 : s ≥ 85 / 100
    · rw [if_pos h2]; decide
    · rw [if_neg h2]
      by_cases h3 : s ≥ 8 / 10
      · rw [if_pos h3]; decide
      · rw [if_neg h3]
        by_cases h4 : s ≥ 75 / 100
        · rw [if_pos h4]; decide
        · rw [if_neg h4]
          by_cases h5 : s ≥ 7 / 10
          · rw [if_pos h5]; decide
          · rw [if_neg h5]
            by_cases h6 : s ≥ 65 / 100
            · rw [if_pos h6]; decide
            · rw [if_neg h6]
              by_cases h7 : s ≥ 6 / 10
              · rw [if_pos h7]; decide
              · rw [if_neg h7]
                by_cases h8 : s ≥ 55 / 100
                · rw [if_pos h8]; decide
                · rw [if_neg h8]
                  by_cases h9 : s ≥ 5 / 10
                  · rw [if_pos h9]; decide
                  · rw [if_neg h9]
                    by_cases h10 : s ≥ 4 / 10
                    · rw [if_pos h10]; decide
                    · rw [if_neg h10]; decide

theorem scoreLevel_le_ten (s : ℚ) : scoreLevel s ≤ 10 := by
  rw [scoreLevel]
  by_cases h1 : s ≥ 9 / 10
  · rw [if_pos h1]
  · rw [if_neg h1]
    by_cases h2 : s ≥ 85 / 100
    · rw [if_pos h2]; omega
    · rw [if_neg h2]
      by_cases h3 : s ≥ 8 / 10
      · rw [if_pos h3]; omega
      · rw [if_neg h3]
        by_cases h4 : s ≥ 75 / 100
        · rw [if_pos h4]; omega
        · rw [if_neg h4]
          by_cases h5 : s ≥ 7 / 10
          · rw [if_pos h5]; omega
          · rw [if_neg h5]
            by_cases h6 : s ≥ 65 / 100
            · rw [if_pos h6]; omega
            · rw [if_neg h6]
              by_cases h7 : s ≥ 6 / 10
              · rw [if_pos h7]; omega
              · rw [if_neg h7]
                by_cases h8 : s ≥ 55 / 100
                · rw [if_pos h8]; omega
                · rw [if_neg h8]
                  by_cases h9 : s ≥ 5 / 10
                  · rw [if_pos h9]; omega
                  · rw [if_neg h9]
                    by_cases h10 : s ≥ 4 / 10
                    · rw [if_pos h10]; omega
                    · rw [if_neg h10]; omega

/-- Lower characterization: a positive level means its threshold is met. -/
theorem scoreLevel_lb (s : ℚ) : 1 ≤ scoreLevel s → thresholdAt (scoreLevel s) ≤ s := by
  rw [scoreLevel]
  by_cases h1 : s ≥ 9 / 10
  · rw [if_pos h1]; intro _; simpa [thresholdAt] using h1
  · rw [if_neg h1]
    by_cases h2 : s ≥ 85 / 100
    · rw [if_pos h2]; intro _; simpa [thresholdAt] using h2
    · rw [if_neg h2]
      by_cases h3 : s ≥ 8 / 10
      · rw [if_pos h3]; intro _; simpa [thresholdAt] using h3
      · rw [if_neg h3]
        by_cases h4 : s ≥ 75 / 100
        · rw [if_pos h4]; intro _; simpa [thresholdAt] using h4
        · rw [if_neg h4]
          by_cases h5 : s ≥ 7 / 10
          · rw [if_pos h5]; intro _; simpa [thresholdAt] using h5
          · rw [if_neg h5]
            by_cases h6 : s ≥ 65 / 100
            · rw [if_pos h6]; intro _; simpa [thresholdAt] using h6
            · rw [if_neg h6]
              by_cases h7 : s ≥ 6 / 10
              · rw [if_pos h7]; intro _; simpa [thresholdAt] using h7
              · rw [if_neg h7]
                by_cases h8 : s ≥ 55 / 100
                · rw [if_pos h8]; intro _; simpa [thresholdAt] using h8
                · rw [if_neg h8]
                  by_cases h9 : s ≥ 5 / 10
                  · rw [if_pos h9]; intro _; simpa [thresholdAt] using h9
                  · rw [if_neg h9]
                    by_cases h10 : s ≥ 4 / 10
                    · rw [if_pos h10]; intro _; simpa [thresholdAt] using h10
                    · rw [if_neg h10]; omega

/-- Upper characterization: below level 10 the next threshold is missed. -/
theorem scoreLevel_ub (s : ℚ) :
    scoreLevel s = 10 ∨ ¬ thresholdAt (scoreLevel s + 1) ≤ s := by
  rw [scoreLevel]
  by_cases h1 : s ≥ 9 / 10
  · rw [if_pos h1]; exact Or.inl rfl
  · rw [if_neg h1]
    by_cases h2 : s ≥ 85 / 100
    · rw [if_pos h2]; exact Or.inr (by simpa [thresholdAt] using h1)
    · rw [if_neg h2]
      by_cases h3 : s ≥ 8 / 10
      · rw [if_pos h3]; exact Or.inr (by simpa [thresholdAt] using h2)
      · rw [if_neg h3]
        by_cases h4 : s ≥ 75 / 100
        · rw [if_pos h4]; exact Or.inr (by simpa [thresholdAt] using h3)
        · rw [if_neg h4]
          by_cases h5 : s ≥ 7 / 10
          · rw [if_pos h5]; exact Or.inr (by simpa [thresholdAt] using h4)
          · rw [if_neg h5]
            by_cases h6 : s ≥ 65 / 100
            · rw [if_pos h6]; exact Or.inr (by simpa [thresholdAt] using h5)
            · rw [if_neg h6]
              by_cases h7 : s ≥ 6 / 10
              · rw [if_pos h7]; exact Or.inr (by simpa [thresholdAt] using h6)
              · rw [if_neg h7]
                by_cases h8 : s ≥ 55 / 100
                · rw [if_pos h8]; exact Or.inr (by simpa [thresholdAt] using h7)
                · rw [if_neg h8]
                  by_cases h9 : s ≥ 5 / 10
                  · rw [if_pos h9]; exact Or.inr (by simpa [thresholdAt] using h8)
                  · rw [if_neg h9]
                    by_cases h10 : s ≥ 4 / 10
                    · rw [if_pos h10]; exact Or.inr (by simpa [thresholdAt] using h9)
                    · rw [if_neg h10]; exact Or.inr (by simpa [thresholdAt] using h10)

theorem thresholdAt_mono :
    ∀ i ≤ 10, ∀ j ≤ 10, i ≤ j → thresholdAt i ≤ thresholdAt j := by
  intro i hi j hj hij
  interval_cases i <;> interval_cases j <;> norm_num [thresholdAt]

theorem thresholdAt_gap :
    ∀ i ≤ 9, 1 ≤ i → thresholdAt i + 1 / 500 ≤ thresholdAt (i + 1) := by
  intro i hi h1
  interval_cases i <;> norm_num [thresholdAt]

theorem scoreLevel_mono {x y : ℚ} (h : x ≤ y) : scoreLevel x ≤ scoreLevel y := by
  by_contra hlt
  push_neg at hlt
  have h1 : 1 ≤ scoreLevel x := by omega
  have hx := scoreLevel_lb x h1
  rcases scoreLevel_ub y with h10 | hub
  · have := scoreLevel_le_ten x
    omega
  · apply hub
    calc thresholdAt (scoreLevel y + 1)
        ≤ thresholdAt (scoreLevel x) :=
          thresholdAt_mono _ (by have := scoreLevel_le_ten x; omega)
            _ (scoreLevel_le_ten x) (by omega)
      _ ≤ x := hx
      _ ≤ y := h

theorem scoreLevel_step {x y : ℚ} (h : y ≤ x + 1 / 500) :
    scoreLevel y ≤ scoreLevel x + 1 := by
  by_contra hlt
  push_neg at hlt
  have h2 : 1 ≤ scoreLevel y := by omega
  have hy := scoreLevel_lb y h2
  rcases scoreLevel_ub x with h10 | hub
  · have := scoreLevel_le_ten y
    omega
  · apply hub
    have hgap : thresholdAt (scoreLevel x + 1) + 1 / 500 ≤ thresholdAt (scoreLevel x + 2) := by
      apply thresholdAt_gap
      · have := scoreLevel_le_ten y
        omega
      · omega
    have hm : thresholdAt (scoreLevel x + 2) ≤ thresholdAt (scoreLevel y) :=
      thresholdAt_mono _ (by have := scoreLevel_le_ten y; omega)
        _ (scoreLevel_le_ten y) (by omega)
    linarith

theorem gradeJitter_nonneg (md5 : Md5Oracle) (b : String) : 0 ≤ gradeJitter md5 b := by
  unfold gradeJitter
  positivity

theorem gradeJitter_le (md5 : Md5Oracle) (b : String) : gradeJitter md5 b ≤ 1 / 500 := by
  unfold gradeJitter
  have h : md5.hex2 (if b = "" then "x" else b).toLower % 3 ≤ 2 := by
    omega
  have h2 : ((md5.hex2 (if b = "" then "x" else b).toLower % 3 : ℕ) : ℚ) ≤ 2 := by
    exact_mod_cast h
  linarith

theorem clamp01_nonneg (x : ℚ) : 0 ≤ clamp01 x := le_pyMax_left 0 _

theorem clamp01_le_one (x : ℚ) : clamp01 x ≤ 1 :=
  pyMax_le (by norm_num) (pyMin_le_left 1 _)

theorem clamp01_mono {x y : ℚ} (h : x ≤ y) : clamp01 x ≤ clamp01 y :=
  pyMax_mono_right (pyMin_mono_right h)

theorem getOverallScore_nonneg (m : OptimizationMetrics) : 0 ≤ getOverallScore m :=
  clamp01_nonneg _

theorem getOverallScore_le_one (m : OptimizationMetrics) : getOverallScore m ≤ 1 :=
  clamp01_le_one _

/-- C3: an `OptimizationMetrics` instance whose 11 core float metrics all
equal 1.0 and whose `ai_citation_count` equals 40 gets overall score exactly
1 (the weight table sums to 1 and the citation count is normalized by 40 and
clamped before weighting); and for every instance the result is clamped to
[0, 1]. -/
theorem claim_C3_overall_score_partition :
    (∀ m : OptimizationMetrics,
      m.chunk_retrieval_frequency = 1 ∧ m.embedding_relevance_score = 1 ∧
      m.attribution_rate = 1 ∧ m.ai_citation_count = 40 ∧
      m.vector_index_presence_ratio = 1 ∧ m.retrieval_confidence_score = 1 ∧
      m.rrf_rank_contribution = 1 ∧ m.llm_answer_coverage = 1 ∧
      m.ai_model_crawl_success_rate = 1 ∧ m.semantic_density_score = 1 ∧
      m.zero_click_surface_presence = 1 ∧ m.machine_validated_authority = 1 →
      getOverallScore m = 1) ∧
    (∀ m : OptimizationMetrics, 0 ≤ getOverallScore m ∧ getOverallScore m ≤ 1) := by
  constructor
  · rintro m ⟨h1, h2, h3, h4, h5, h6, h7, h8, h9, h10, h11, h12⟩
    unfold getOverallScore
    rw [h1, h2, h3, h4, h5, h6, h7, h8, h9, h10, h11, h12]
    norm_num [clamp01, pyMax, pyMin]
  · intro m
    exact ⟨getOverallScore_nonneg m, getOverallScore_le_one m⟩

/-- Trivial hash oracle, used to instantiate witnesses and counterexamples
whose conclusions do not depend on concrete digest values. -/
def md5Zero : Md5Oracle := ⟨fun _ => 0, fun _ => 0, fun _ => 0⟩

theorem consistent_rank_eq (md5 : Md5Oracle) (b : String) (s : ℚ) :
    gradeRank (getConsistentGrade md5 b s)
      = scoreLevel (clamp01 (s + gradeJitter md5 b)) := by
  rw [getConsistentGrade]
  exact gradeRank_gradeChain _

/-- C4: grading is monotone up to jitter.  First conjunct: for scores
`s1 < s2` separated by more than 0.003 and any two jitter-seeding brand
names, the consistent grade of `s1` is never strictly better than that of
`s2`.  Second conjunct: for any metrics instance, the brand-seeded jitter
moves the consistent grade at most one threshold step above the unjittered
`get_performance_grade`, and never below it. -/
theorem claim_C4_grading_monotone :
    (∀ (md5 : Md5Oracle) (b1 b2 : String) (s1 s2 : ℚ), s2 - s1 > 3 / 1000 →
      gradeRank (getConsistentGrade md5 b1 s1) ≤ gradeRank (getConsistentGrade md5 b2 s2)) ∧
    (∀ (md5 : Md5Oracle) (b : String) (m : OptimizationMetrics),
      gradeRank (getPerformanceGrade m)
          ≤ gradeRank (getConsistentGrade md5 b (getOverallScore m)) ∧
      gradeRank (getConsistentGrade md5 b (getOverallScore m))
          ≤ gradeRank (getPerformanceGrade m) + 1) := by
  constructor
  · intro md5 b1 b2 s1 s2 hsep
    rw [consistent_rank_eq, consistent_rank_eq]
    apply scoreLevel_mono
    apply clamp01_mono
    have hj1 := gradeJitter_le md5 b1
    have hj2 := gradeJitter_nonneg md5 b2
    linarith
  · intro md5 b m
    set s := getOverallScore m with hs
    have hs0 : 0 ≤ s := getOverallScore_nonneg m
    have hs1 : s ≤ 1 := getOverallScore_le_one m
    have hj0 := gradeJitter_nonneg md5 b
    have hj1 := gradeJitter_le md5 b
    have hclamp : clamp01 (s + gradeJitter md5 b) = pyMin 1 (s + gradeJitter md5 b) := by
      apply pyMax_eq_right
      have : (0 : ℚ) ≤ s + gradeJitter md5 b := by linarith
      exact le_pyMin (by norm_num) this
    have hlow : s ≤ pyMin 1 (s + gradeJitter md5 b) := le_pyMin hs1 (by linarith)
    have hhigh : pyMin 1 (s + gradeJitter md5 b) ≤ s + 1 / 500 :=
      le_trans (pyMin_le_right _ _) (by linarith)
    have hplain : gradeRank (getPerformanceGrade m) = scoreLevel s := by
      rw [getPerformanceGrade]
      exact gradeRank_gradeChain _
    constructor
    · rw [hplain, consistent_rank_eq, hclamp]
      exact scoreLevel_mono hlow
    · rw [hplain, consistent_rank_eq, hclamp]
      exact scoreLevel_step hhigh

/-- Witness for C4 at concrete scores 0 and 1 and concrete brand seeds. -/
theorem claim_C4_grading_monotone_witness :
    ((1 : ℚ) - 0 > 3 / 1000 ∧
      gradeRank (getConsistentGrade md5Zero "NovaBot" 0)
        ≤ gradeRank (getConsistentGrade md5Zero "AcmeCo" 1)) ∧
    gradeRank (getPerformanceGrade {})
        ≤ gradeRank (getConsistentGrade md5Zero "NovaBot" (getOverallScore {})) :=
  ⟨⟨by norm_num,
    claim_C4_grading_monotone.1 md5Zero "NovaBot" "AcmeCo" 0 1 (by norm_num)⟩,
    (claim_C4_grading_monotone.2 md5Zero "NovaBot" {}).1⟩

/-- Witness for C3 at a concrete all-maximal instance. -/
theorem claim_C3_overall_score_partition_witness :
    getOverallScore
      { chunk_retrieval_frequency := 1, embedding_relevance_score := 1,
        attribution_rate := 1, ai_citation_count := 40,
        vector_index_presence_ratio := 1, retrieval_confidence_score := 1,
        rrf_rank_contribution := 1, llm_answer_coverage := 1,
        ai_model_crawl_success_rate := 1, semantic_density_score := 1,
        zero_click_surface_presence := 1, machine_validated_authority := 1 } = 1 :=
  claim_C3_overall_score_partition.1 _
    ⟨rfl, rfl, rfl, rfl, rfl, rfl, rfl, rfl, rfl, rfl, rfl, rfl⟩

/-! Python exceptions that the embedded fragment can raise. -/

/-- The exceptions arising in the embedded code paths. -/
inductive PyErr where
  | nameError : String → PyErr
  | attributeError : String → PyErr
  | runtimeError : String → PyErr
  | typeError : String → PyErr
deriving DecidableEq

/-- `str(e)` for the exceptions above, as Python renders them. -/
def pyErrMessage : PyErr → String
  | .nameError n => "name '" ++ n ++ "' is not defined"
  | .attributeError n => "'AIOptimizationEngine' object has no attribute '" ++ n ++ "'"
  | .runtimeError m => m
  | .typeError m => m

/-! String helpers mirroring the Python string operations the engine uses. -/

/-- Python `str.lower()` (ASCII case folding). -/
def pyLower (s : String) : String := ⟨s.data.map Char.toLower⟩

/-- Python `str.strip()`: drop leading and trailing whitespace. -/
def pyStrip (s : String) : String :=
  ⟨((s.data.dropWhile Char.isWhitespace).reverse.dropWhile Char.isWhitespace).reverse⟩

/-- Helper for `pySplitWs`: accumulate the current token (reversed) while
scanning. -/
def splitWsGo : List Char → List Char → List String
  | [], acc => if acc = [] then [] else [⟨acc.reverse⟩]
  | c :: t, acc =>
    if c.isWhitespace then
      if acc = [] then splitWsGo t [] else (⟨acc.reverse⟩ : String) :: splitWsGo t []
    else splitWsGo t (c :: acc)

/-- Python `str.split()` with no separator (also `re.split(r"\s+", s)` on a
stripped string): whitespace-run split producing no empty tokens. -/
def pySplitWs (s : String) : List String := splitWsGo s.data []

/-- Helper for `pySplitOnDoubleNewline`: greedy left-to-right split at each
occurrence of the two-character separator. -/
def splitNNGo : List Char → List Char → List (List Char)
  | [], acc => [acc.reverse]
  | '\n' :: '\n' :: t, acc => acc.reverse :: splitNNGo t []
  | c :: t, acc => splitNNGo t (c :: acc)

/-- Python `s.split('\n\n')`. -/
def pySplitOnDoubleNewline (s : String) : List String :=
  (splitNNGo s.data []).map fun l => ⟨l⟩

/-- Python `str.replace(a, b)` for single-character arguments. -/
def replaceChar (a b : Char) (s : String) : String :=
  ⟨s.data.map fun c => if c = a then b else c⟩

/-- Python `str.replace(' ', '')`. -/
def removeSpaces (s : String) : String := ⟨s.data.filter fun c => c != ' '⟩

/-- `sub in hay` on lists of characters. -/
def listInfix (n : List Char) : List Char → Bool
  | [] => n.isEmpty
  | c :: t => n.isPrefixOf (c :: t) || listInfix n t

/-- Python `sub in hay` for strings. -/
def strContainsSub (hay sub : String) : Bool := listInfix sub.data hay.data

/-- Helper for `countOcc`: left-to-right non-overlapping scan.  The fuel
argument, initialized to the haystack length, only makes the scan
structurally recursive; each step consumes at least one character. -/
def countOccAux (n : List Char) : ℕ → List Char → ℕ
  | _, [] => 0
  | 0, _ => 0
  | fuel + 1, c :: t =>
    if n.isPrefixOf (c :: t) then 1 + countOccAux n fuel ((c :: t).drop n.length)
    else countOccAux n fuel t

/-- Python `hay.count(sub)`: non-overlapping occurrences scanning left to
right; the empty needle counts `len(hay) + 1` as in Python. -/
def countOcc (n h : List Char) : ℕ :=
  if n = [] then h.length + 1 else countOccAux n h.length h

/-! Brand-mention detection (`_detect_brand_mention`, source lines
1835-1884).  The source compiles each variant into the regex
`\b<variant>(?:'s)?\b` (plus a flexible-separator pattern for multi-word
brands and a `\b<collapsed>\.com\b` domain pattern) and searches the
lowercased response.  The matcher below implements exactly those regex
shapes over lists of characters: `\b` is the usual word-boundary test, and
the optional possessive is an alternation. -/

/-- A regex word character (`\w`): letters, digits, underscore. -/
def isWordChar (c : Char) : Bool := c.isAlphanum || c == '_'

/-- Whether an optional character (out-of-string = none) is a word
character. -/
def wordOpt : Option Char → Bool
  | some c => isWordChar c
  | none => false

/-- The `\b` word-boundary test between two adjacent positions. -/
def bnd (a b : Option Char) : Bool := wordOpt a != wordOpt b

/-- Last character of a pattern body, falling back to the character before
the match when the body is empty. -/
def lastCharOf (v : List Char) (fallback : Option Char) : Option Char :=
  match v.getLast? with
  | some c => some c
  | none => fallback

/-- Match the pattern tail `(?:'s)?\b` (or plain `\b` when `poss` is false)
at the position after the body, whose last consumed text character is
`last`. -/
def possTail (poss : Bool) (last : Option Char) (rest : List Char) : Bool :=
  (poss &&
    match rest with
    | '\'' :: 's' :: r => bnd (some 's') r.head?
    | _ => false)
  || bnd last rest.head?

/-- Match `\b<v>(?:'s)?\b` at the current position; `prev` is the text
character just before it. -/
def litHere (poss : Bool) (prev : Option Char) (v : List Char) (s : List Char) : Bool :=
  bnd prev s.head? && v.isPrefixOf s && possTail poss (lastCharOf v prev) (s.drop v.length)

/-- `re.search` for a literal-body pattern: try every position. -/
def searchLit (poss : Bool) (v : List Char) : Option Char → List Char → Bool
  | prev, [] => litHere poss prev v []
  | prev, c :: rest => litHere poss prev v (c :: rest) || searchLit poss v (some c) rest

/-- Separator class `[\s\-]` of the flexible multi-word pattern. -/
def sepChar (c : Char) : Bool := c.isWhitespace || c == '-'

/-- Consume `[\s\-]+` then the word `w`, returning the rest on success;
tries every positive separator-run length. -/
def sepThenWord (w : List Char) : List Char → Option (List Char)
  | [] => none
  | c :: rest =>
    if sepChar c then
      if w.isPrefixOf rest then some (rest.drop w.length)
      else sepThenWord w rest
    else none

/-- Match the remaining words of `w1 ([\s\-]+ wk)* (?:'s)?\b`. -/
def wordsTail (poss : Bool) : List (List Char) → List Char → Option Char → Bool
  | [], s, last => possTail poss last s
  | w :: ws, s, last =>
    match sepThenWord w s with
    | none => false
    | some r => wordsTail poss ws r (lastCharOf w last)

/-- Match the flexible multi-word pattern at the current position. -/
def wordsHere (poss : Bool) (prev : Option Char) (ws : List (List Char)) (s : List Char) : Bool :=
  match ws with
  | [] => false
  | w :: rest =>
    bnd prev s.head? && w.isPrefixOf s && wordsTail poss rest (s.drop w.length) (lastCharOf w prev)

/-- `re.search` for the flexible multi-word pattern. -/
def searchWords (poss : Bool) (ws : List (List Char)) : Option Char → List Char → Bool
  | prev, [] => wordsHere poss prev ws []
  | prev, c :: rest => wordsHere poss prev ws (c :: rest) || searchWords poss ws (some c) rest

/-- `_detect_brand_mention` (source lines 1835-1884): lowercase both
strings, build the variant set (brand, hyphen→space, space→hyphen,
collapsed, and initials for multi-word brands), and search for each
variant with optional possessive, the flexible-separator multi-word
pattern, and the `<collapsed>.com` domain pattern. -/
def detectBrandMention (brandName responseText : String) : Bool :=
  if responseText = "" || brandName = "" then false
  else
    let text := (pyLower responseText).data
    let brand := pyStrip (pyLower brandName)
    let brandWords := pySplitWs brand
    let baseVariants : List String :=
      [brand, replaceChar '-' ' ' brand, replaceChar ' ' '-' brand, removeSpaces brand]
    let variants : List String :=
      if brandWords.length > 1 then
        let initials : String := ⟨brandWords.filterMap fun w => w.data.head?⟩
        if initials.length ≥ 2 then baseVariants ++ [initials] else baseVariants
      else baseVariants
    (variants.any fun v => searchLit true v.data none text)
    || (brandWords.length > 1 && searchWords true (brandWords.map String.data) none text)
    || searchLit false (removeSpaces brand ++ ".com").data none text

/-- C5 evaluation of the four specified mention-detection cases: the code
returns false on the first one (`"I love Acme's service"`), where the
specification requires true — no generated variant covers a possessive of
the first word alone — and agrees with the specification on the other
three. -/
theorem claim_C5_detect_mention_cases :
    detectBrandMention "Acme Corp" "I love Acme's service" = false ∧
    detectBrandMention "Acme Corp" "unrelated text" = false ∧
    detectBrandMention "Acme Corp" "ACME CORP is great" = true ∧
    detectBrandMention "Acme-Corp" "Acme Corp rocks" = true := by
  refine ⟨?_, ?_, ?_, ?_⟩ <;> decide

/-! Brand-name-derived heuristics. -/

/-- Join strings with single spaces (`' '.join(...)`). -/
def joinSpace : List String → String
  | [] => ""
  | [x] => x
  | x :: xs => x ++ " " ++ joinSpace xs

/-- `_determine_industry_context` (source lines 2459-2473): substring
checks over the space-joined, lowercased brand name and categories. -/
def determineIndustryContext (brandName : String) (productCategories : List String) : String :=
  let categories := pyLower (joinSpace (brandName :: productCategories))
  if ["car", "auto", "vehicle", "ev", "tesla"].any (strContainsSub categories ·) then "automotive"
  else if ["tech", "software", "cloud", "ai", "data"].any (strContainsSub categories ·) then
    "technology"
  else if ["bank", "finance", "capital", "invest"].any (strContainsSub categories ·) then
    "finance"
  else if ["health", "medical", "pharma", "care"].any (strContainsSub categories ·) then
    "healthcare"
  else if ["estate", "property", "real estate"].any (strContainsSub categories ·) then
    "real estate"
  else if ["energy", "solar", "battery", "power"].any (strContainsSub categories ·) then "energy"
  else "general business"

/-- `_classify_brand_type` (source lines 1267-1292). -/
def classifyBrandType (brandName : String) : String :=
  let brandLower := pyLower brandName
  if ["tech", "soft", "app", "digital", "sys", "cloud", "ai", "data"].any
      (strContainsSub brandLower ·) then "technology"
  else if ["services", "solutions", "consulting", "group", "partners"].any
      (strContainsSub brandLower ·) then "service_provider"
  else if ["products", "manufacturing", "labs", "works", "industries"].any
      (strContainsSub brandLower ·) then "product_company"
  else if ["health", "medical", "pharma", "care", "wellness"].any
      (strContainsSub brandLower ·) then "healthcare"
  else if ["bank", "finance", "capital", "invest", "fund"].any
      (strContainsSub brandLower ·) then "financial"
  else "general_business"

/-- `_calculate_brand_strength_score` (source lines 2093-2111): length,
letter uniqueness and consonant-ratio blend, md5 jitter, rounded to 4
places and clamped to [0, 1]; 0.5 for the empty name. -/
def calculateBrandStrengthScore (md5 : Md5Oracle) (brandName : String) : ℚ :=
  if brandName = "" then 1 / 2
  else
    let name := pyStrip (pyLower brandName)
    let lengthFactor : ℚ := pyMin 1 ((name.length : ℚ) / 12)
    let alpha := name.data.filter Char.isAlpha
    let uniqueness : ℚ := (alpha.eraseDups.length : ℚ) / ((max 1 alpha.length : ℕ) : ℚ)
    let consonants :=
      (name.data.filter fun c => c.isAlpha && !(['a', 'e', 'i', 'o', 'u'].contains c)).length
    let consonantRatio : ℚ := (consonants : ℚ) / ((max 1 alpha.length : ℕ) : ℚ)
    let base := 4/10 * lengthFactor + 4/10 * uniqueness + 2/10 * consonantRatio
    let jitter : ℚ := ((md5.hex4 name % 15 : ℕ) : ℚ) / 100
    clamp01 (pyRound (base * (85/100) + jitter) 4)

theorem calculateBrandStrengthScore_nonneg (md5 : Md5Oracle) (b : String) :
    0 ≤ calculateBrandStrengthScore md5 b := by
  rw [calculateBrandStrengthScore]
  split_ifs
  · norm_num
  · exact clamp01_nonneg _

theorem calculateBrandStrengthScore_le_one (md5 : Md5Oracle) (b : String) :
    calculateBrandStrengthScore md5 b ≤ 1 := by
  rw [calculateBrandStrengthScore]
  split_ifs
  · norm_num
  · exact clamp01_le_one _

/-- `_calculate_visibility_potential_fallback` (source lines 2141-2176):
memorability, uniqueness, industry boost and brand strength, md5
consistency term, rounded and clamped into [0.1, 0.9].  The industry
multiplier table only has keys `technology`, `healthcare`, `finance` and
`general_business`; the key `general_business` (underscore) is never
produced by the 7-way classifier, so other industries fall to the 0.65
default. -/
def calculateVisibilityPotentialFallback (md5 : Md5Oracle) (brandName : String) : ℚ :=
  let name := pyLower brandName
  let lengthFactor : ℚ := pyMin 1 (8 / ((max 1 name.length : ℕ) : ℚ))
  let uniqueness : ℚ := (name.data.eraseDups.length : ℚ) / ((max 1 name.length : ℕ) : ℚ)
  let industry := determineIndustryContext brandName []
  let industryBoost : ℚ :=
    if industry = "technology" then 85/100
    else if industry = "healthcare" then 75/100
    else if industry = "finance" then 7/10
    else 65/100
  let strength := calculateBrandStrengthScore md5 brandName
  let baseScore :=
    25/100 * lengthFactor + 25/100 * uniqueness + 30/100 * industryBoost + 20/100 * strength
  let consistencyFactor : ℚ := ((md5.hex4 name % 15 : ℕ) : ℚ) / 100
  pyMax (1/10) (pyMin (9/10) (pyRound (baseScore + consistencyFactor) 4))

theorem calculateVisibilityPotentialFallback_nonneg (md5 : Md5Oracle) (b : String) :
    0 ≤ calculateVisibilityPotentialFallback md5 b := by
  rw [calculateVisibilityPotentialFallback]
  exact le_trans (by norm_num) (le_pyMax_left (1/10) _)

theorem calculateVisibilityPotentialFallback_le_one (md5 : Md5Oracle) (b : String) :
    calculateVisibilityPotentialFallback md5 b ≤ 1 := by
  rw [calculateVisibilityPotentialFallback]
  exact pyMax_le (by norm_num) (le_trans (pyMin_le_left _ _) (by norm_num))

/-- `_estimate_coverage_from_brand_name` (source lines 2380-2394), also the
target of the `_estimate_coverage_from_brand` alias: industry multiplier
times a brand-strength affine term, rounded and clamped to [0, 1]. -/
def estimateCoverageFromBrandName (md5 : Md5Oracle) (brandName : String) : ℚ :=
  let industry := determineIndustryContext brandName []
  let m : ℚ :=
    if industry = "technology" then 8/10
    else if industry = "healthcare" then 7/10
    else if industry = "finance" then 65/100
    else if industry = "real estate" then 6/10
    else if industry = "automotive" then 75/100
    else if industry = "energy" then 7/10
    else if industry = "general business" then 6/10
    else 6/10
  let strength := calculateBrandStrengthScore md5 brandName
  clamp01 (pyRound (m * (6/10 + 1/2 * strength)) 4)

/-! The per-response position heuristic (`_calculate_response_position`,
source lines 1781-1833). -/

/-- The positive sentiment indicators of line 1796. -/
def positiveIndicators : List String :=
  ["recommend", "excellent", "best", "top", "leading", "trusted", "reliable", "great",
    "good", "popular"]

/-- The negative sentiment indicators of line 1797. -/
def negativeIndicators : List String :=
  ["avoid", "poor", "worst", "unreliable", "problematic", "bad", "issues", "problems"]

/-- `_calculate_response_position` (source lines 1781-1825): None when the
brand is not mentioned; otherwise a base position from brand strength,
adjusted by mention count, sentiment indicators and an md5-derived
per-response variation, rounded to one decimal and clamped to [1, 10].
(The `brand_hash` of line 1807 is computed but unused by the formula.) -/
def calculateResponsePosition (md5 : Md5Oracle) (brandName responseText : String)
    (brandMentioned : Bool) : Option ℚ :=
  if !brandMentioned then none
  else
    let responseLower := pyLower responseText
    let brandLower := pyLower brandName
    let mentionCount := countOcc brandLower.data responseLower.data
    let mentionBoost : ℚ := pyMin 2 ((mentionCount : ℚ) * (5/10))
    let positiveScore := (positiveIndicators.filter (strContainsSub responseLower ·)).length
    let negativeScore := (negativeIndicators.filter (strContainsSub responseLower ·)).length
    let qualityAdjustment : ℚ := (positiveScore : ℚ) * (8/10) - (negativeScore : ℚ) * (15/10)
    let brandStrength := calculateBrandStrengthScore md5 brandName
    let basePosition : ℚ := 6 - brandStrength * 4
    let variation : ℚ := ((md5.hex4 responseText % 20 : ℕ) : ℚ) / 10 - 1
    some (pyMax 1 (pyMin 10 (pyRound (basePosition - mentionBoost - qualityAdjustment + variation) 1)))

/-- The except-branch of `_calculate_response_position` (source lines
1826-1833): a brand-hash fallback position in 3..7, or 5 for an empty
brand name. -/
def responsePositionErrorFallback (md5 : Md5Oracle) (brandName : String) : ℚ :=
  if brandName ≠ "" then 3 + ((md5.hex4 (pyLower brandName) % 5 : ℕ) : ℚ)
  else 5

/-- C8: the position heuristic returns None exactly when the brand is not
mentioned; when mentioned it returns a value clamped to [1, 10]; and the
internal error-fallback path also stays within [1, 10]. -/
theorem claim_C8_position_range :
    ∀ (md5 : Md5Oracle) (brand response : String),
      calculateResponsePosition md5 brand response false = none ∧
      (∀ p : ℚ, calculateResponsePosition md5 brand response true = some p →
        1 ≤ p ∧ p ≤ 10) ∧
      1 ≤ responsePositionErrorFallback md5 brand ∧
      responsePositionErrorFallback md5 brand ≤ 10 := by
  intro md5 brand response
  refine ⟨rfl, ?_, ?_, ?_⟩
  · intro p hp
    rw [calculateResponsePosition] at hp
    simp only [Bool.not_true, Bool.false_eq_true, if_false, Option.some.injEq] at hp
    subst hp
    constructor
    · exact le_pyMax_left 1 _
    · exact pyMax_le (by norm_num) (pyMin_le_left 10 _)
  · rw [responsePositionErrorFallback]
    split_ifs
    · have : (0 : ℚ) ≤ ((md5.hex4 (pyLower brand) % 5 : ℕ) : ℚ) := by positivity
      linarith
    · norm_num
  · rw [responsePositionErrorFallback]
    split_ifs
    · have h5 : md5.hex4 (pyLower brand) % 5 ≤ 4 := by omega
      have : ((md5.hex4 (pyLower brand) % 5 : ℕ) : ℚ) ≤ 4 := by exact_mod_cast h5
      linarith
    · norm_num

theorem position_empty_eval :
    calculateResponsePosition md5Zero "" "" true = some (5/2) := by
  rw [calculateResponsePosition]
  simp only [Bool.not_true, Bool.false_eq_true, if_false]
  have h1 : countOcc (pyLower "").data (pyLower "").data = 1 := by decide
  have h2 : (positiveIndicators.filter (strContainsSub (pyLower "") ·)).length = 0 := by decide
  have h3 : (negativeIndicators.filter (strContainsSub (pyLower "") ·)).length = 0 := by decide
  have h4 : calculateBrandStrengthScore md5Zero "" = 1 / 2 := by
    rw [calculateBrandStrengthScore, if_pos rfl]
  have h5 : md5Zero.hex4 "" = 0 := rfl
  rw [h1, h2, h3, h4, h5]
  norm_num [pyMin, pyMax, pyRound, pyRoundHE]

/-- Witness for C8 at a concrete mentioned response. -/
theorem claim_C8_position_range_witness :
    calculateResponsePosition md5Zero "" "" true = some (5/2) ∧
    1 ≤ (5/2 : ℚ) ∧ (5/2 : ℚ) ≤ 10 :=
  ⟨position_empty_eval,
    (claim_C8_position_range md5Zero "" "").2.1 (5/2) position_empty_eval⟩

/-! Content chunking (`_create_content_chunks_from_sample`, source lines
819-868), in the degraded configuration: the sentence-transformer model is
absent, so the embedding of every chunk stays `None` (lines 836-841).  The
NLTK-backed semantic-tag extractor (`_extract_semantic_tags`, lines
892-942) is an external collaborator and appears as the oracle parameter
`tags`. -/

/-- A content chunk (the `ContentChunk` dataclass, source lines 117-126). -/
structure ContentChunk where
  text : String
  word_count : ℕ
  embedding : Option (List ℚ) := none
  keywords : List String := []
  has_structure : Bool := false
  confidence_score : ℚ := 0
  semantic_tags : List String := []

/-- The structure indicators of line 850. -/
def hasStructureIndicators (para : String) : Bool :=
  [":", "-", "•", "1.", "2."].any (strContainsSub para ·)

/-- The stop words of `_extract_simple_keywords` (lines 874-878). -/
def keywordStopWords : List String :=
  ["the", "a", "an", "and", "or", "but", "in", "on", "at", "to", "for",
    "of", "with", "by", "is", "are", "was", "were", "be", "been", "have",
    "has", "had", "do", "does", "did", "will", "would", "could", "should"]

/-- Maximal runs of regex word characters, for `re.findall` with
word-boundary anchors. -/
def wordRunsGo : List Char → List Char → List (List Char)
  | [], acc => if acc = [] then [] else [acc.reverse]
  | c :: t, acc =>
    if isWordChar c then wordRunsGo t (c :: acc)
    else if acc = [] then wordRunsGo t [] else acc.reverse :: wordRunsGo t []

/-- `re.findall(r"\b[a-zA-Z]{3,}\b", s)`: the maximal word-character runs
that are purely alphabetic and at least three characters long (a run
containing a digit or underscore defeats the boundary anchors). -/
def regexAlphaWords (s : String) : List String :=
  ((wordRunsGo s.data []).filter fun r => decide (3 ≤ r.length) && r.all Char.isAlpha).map
    fun r => (⟨r⟩ : String)

/-- Stable descending insertion by count (ties keep earlier elements
first), matching `Counter.most_common`. -/
def insertByCountDesc (p : String × ℕ) : List (String × ℕ) → List (String × ℕ)
  | [] => [p]
  | q :: t => if q.2 ≥ p.2 then q :: insertByCountDesc p t else p :: q :: t

/-- `_extract_simple_keywords` (source lines 870-890): alphabetic tokens of
length ≥ 3 from the lowercased text, stop words removed, the ten most
frequent first (`Counter.most_common(10)` is stable on first insertion for
ties). -/
def extractSimpleKeywords (text : String) : List String :=
  let words := regexAlphaWords (pyLower text)
  let keywords := words.filter fun w => !(keywordStopWords.contains w)
  let pairs := keywords.eraseDups.map fun w =>
    (w, (keywords.filter fun x => x == w).length)
  ((pairs.foldl (fun acc p => insertByCountDesc p acc) []).take 10).map Prod.fst

/-- `_create_content_chunks_from_sample` (source lines 819-868) with the
embedding model absent: split on `'\n\n'`, strip, drop empties, skip
paragraphs shorter than 20 characters, and annotate each survivor. -/
def createContentChunksDegraded (tags : String → List String) (contentSample : String) :
    List ContentChunk :=
  if contentSample = "" then []
  else
    (((pySplitOnDoubleNewline contentSample).map pyStrip).filter (· ≠ "")).filterMap
      fun para =>
        if para.length < 20 then none
        else some
          { text := para
            word_count := (pySplitWs para).length
            embedding := none
            keywords := extractSimpleKeywords para
            semantic_tags := tags para
            has_structure := hasStructureIndicators para
            confidence_score := pyMin 1 (((pySplitWs para).length : ℚ) / 50) }

/-- C7: every returned chunk arises from a stripped blank-line-separated
paragraph at least 20 characters long, with `word_count` the
whitespace-token count and `confidence_score = min(1, word_count/50)` in
[0, 1]; an empty input, or one with no surviving paragraph, yields the
empty chunk list. -/
theorem claim_C7_chunking_postconditions :
    ∀ (tags : String → List String) (content : String),
      createContentChunksDegraded tags "" = [] ∧
      (∀ c ∈ createContentChunksDegraded tags content,
        ∃ para ∈ (pySplitOnDoubleNewline content).map pyStrip,
          para ≠ "" ∧ 20 ≤ para.length ∧ c.text = para ∧
          c.word_count = (pySplitWs para).length ∧
          c.confidence_score = pyMin 1 ((c.word_count : ℚ) / 50) ∧
          0 ≤ c.confidence_score ∧ c.confidence_score ≤ 1) ∧
      ((∀ para ∈ (pySplitOnDoubleNewline content).map pyStrip,
          para = "" ∨ para.length < 20) →
        createContentChunksDegraded tags content = []) := by
  intro tags content
  refine ⟨rfl, ?_, ?_⟩
  · intro c hc
    rw [createContentChunksDegraded] at hc
    by_cases hemp : content = ""
    · rw [if_pos hemp] at hc
      simp at hc
    · rw [if_neg hemp] at hc
      rcases List.mem_filterMap.1 hc with ⟨para, hpara, hfc⟩
      rcases List.mem_filter.1 hpara with ⟨hmem, hne⟩
      by_cases hlen : para.length < 20
      · rw [if_pos hlen] at hfc
        exact absurd hfc (by simp)
      · rw [if_neg hlen] at hfc
        have hc' := Option.some.inj hfc
        refine ⟨para, hmem, by simpa using hne, by omega, ?_, ?_, ?_, ?_, ?_⟩
        · rw [← hc']
        · rw [← hc']
        · rw [← hc']
        · rw [← hc']
          exact le_pyMin (by norm_num) (by positivity)
        · rw [← hc']
          exact pyMin_le_left _ _
  · intro hall
    rw [createContentChunksDegraded]
    by_cases hemp : content = ""
    · rw [if_pos hemp]
    · rw [if_neg hemp]
      apply List.filterMap_eq_nil.2
      intro para hpara
      rcases List.mem_filter.1 hpara with ⟨hmem, hne⟩
      rcases hall para hmem with h | h
      · exact absurd h (by simpa using hne)
      · rw [if_pos h]

/-- Witness for C7: a content sample whose only paragraph is shorter than
20 characters yields no chunks. -/
theorem claim_C7_chunking_postconditions_witness :
    createContentChunksDegraded (fun _ => []) "short" = [] :=
  (claim_C7_chunking_postconditions (fun _ => []) "short").2.2 (by decide)

/-! The fast metrics calculation (`calculate_optimization_metrics_fast`,
source lines 429-528) in the degraded configuration. -/

/-- Ambient per-process state of the engine: the salt of Python's built-in
`hash()` (consulted via `hash(tuple(sorted(product_categories)))` only on
the LLM-backed visibility path, line 2181), the NLTK-backed semantic-tag
extractor (line 892), and the wall clock (`datetime.now().isoformat()`). -/
structure EngineEnv where
  pyHashSalt : ℕ
  nltkTags : String → List String
  now : String

/-- Trivial environment used to instantiate witnesses and counterexamples. -/
def envZero : EngineEnv := ⟨0, fun _ => [], ""⟩

/-- `brand_length_factor` of line 504: `min(1.0, len(brand_name) / 10.0)`. -/
def brandLengthFactor (brandName : String) : ℚ := pyMin 1 ((brandName.length : ℚ) / 10)

/-- `brand_complexity` of line 505: `len(set(brand_name.lower())) / 26.0` —
the count of distinct characters (not only letters), so names mixing in
digits or punctuation can push it above 1. -/
def brandComplexity (brandName : String) : ℚ :=
  ((pyLower brandName).data.eraseDups.length : ℚ) / 26

/-- `_calculate_chunk_retrieval_frequency` (source lines 645-662). -/
def calculateChunkRetrievalFrequency (chunks : List ContentChunk) : ℚ :=
  if chunks.isEmpty then 0
  else
    pyMin 1
      ((chunks.map fun c =>
          (if 50 < c.word_count then (4 : ℚ)/10 else 0) +
          (if c.has_structure then (3 : ℚ)/10 else 0) +
          (if 3 < c.keywords.length then (3 : ℚ)/10 else 0)).sum
        / (chunks.length : ℚ))

/-- `_generate_brand_specific_content` (source lines 2533-2549). -/
def generateBrandSpecificContent (brandName : String) : String :=
  let industry := determineIndustryContext brandName []
  let feats :=
    if industry = "technology" then "scalable, secure, integrated"
    else if industry = "automotive" then "range, safety, performance"
    else if industry = "healthcare" then "efficacy, safety, compliance"
    else if industry = "finance" then "returns, risk management, compliance"
    else if industry = "real estate" then "locations, value, trust"
    else if industry = "energy" then "renewable, efficient, sustainable"
    else "quality, service, value"
  s!"{brandName} operates in the {industry} industry. Our focus includes {feats}. We provide answers to common questions such as what {brandName} is, how it helps, and why it stands out."

/-- `_calculate_embedding_relevance` (source lines 664-692) with the model
absent: the guard `not chunks or not queries or not self.model` holds, and
its fallback expression `brand_name if hasattr(self, 'current_brand') else
'Unknown'` (line 667) evaluates `brand_name`, which is not a name in the
method's scope — `current_brand` was set by the caller at line 436 — so the
call raises `NameError` before its own try block starts. -/
def calculateEmbeddingRelevanceDegraded (chunks : List ContentChunk)
    (queries : List String) : Except PyErr ℚ :=
  .error (.nameError "brand_name")

/-- The field assignments of the fallback branch (source lines 501-524),
before the summary fields are filled in. -/
def fallbackCore (md5 : Md5Oracle) (brandName : String) : OptimizationMetrics :=
  { chunk_retrieval_frequency := brandLengthFactor brandName * (7/10)
    embedding_relevance_score := brandComplexity brandName * (8/10)
    attribution_rate := calculateBrandStrengthScore md5 brandName
    ai_citation_count :=
      max 1 (pyTrunc ((brandName.length : ℚ) * brandComplexity brandName * 20))
    vector_index_presence_ratio := brandLengthFactor brandName * (6/10)
    retrieval_confidence_score := (brandLengthFactor brandName + brandComplexity brandName) / 2
    rrf_rank_contribution := brandComplexity brandName * (7/10)
    llm_answer_coverage := estimateCoverageFromBrandName md5 brandName
    ai_model_crawl_success_rate := brandLengthFactor brandName * (8/10)
    semantic_density_score := brandComplexity brandName * (9/10)
    zero_click_surface_presence := calculateVisibilityPotentialFallback md5 brandName
    machine_validated_authority :=
      (brandLengthFactor brandName + brandComplexity brandName) / 2 * (8/10)
    brand_strength_score := calculateBrandStrengthScore md5 brandName
    brand_visibility_potential := calculateVisibilityPotentialFallback md5 brandName
    content_quality_score := clamp01 (4/10 + (3/10) * brandComplexity brandName)
    industry_relevance := clamp01 (1/2 + (2/10) * brandLengthFactor brandName) }

/-- The complete fallback branch (source lines 498-528): the metrics above
with `overall_score` and the brand-consistent `performance_grade` filled in
(lines 525-526); `amanda_crast_score` and `performance_summary` keep their
dataclass defaults on this branch. -/
def fallbackMetrics (md5 : Md5Oracle) (brandName : String) : OptimizationMetrics :=
  { fallbackCore md5 brandName with
    overall_score := getOverallScore (fallbackCore md5 brandName)
    performance_grade :=
      getConsistentGrade md5 brandName (getOverallScore (fallbackCore md5 brandName)) }

/-- The try block of `calculate_optimization_metrics_fast` (source lines
433-496) in the degraded configuration: content chunks and the five test
queries are built (lines 438-456) and `chunk_retrieval_frequency` is
computed (line 459), but the embedding-relevance step of line 460 always
raises `NameError`, so the assignments of lines 461-496 are never
reached. -/
def fastTryDegraded (md5 : Md5Oracle) (env : EngineEnv) (brandName : String)
    (contentSample : Option String) : Except PyErr OptimizationMetrics := do
  let text :=
    match contentSample with
    | some s => if s = "" then generateBrandSpecificContent brandName else s
    | none => generateBrandSpecificContent brandName
  let chunks := createContentChunksDegraded env.nltkTags text
  let queries := [s!"What is {brandName}?", s!"Tell me about {brandName}",
    s!"How good is {brandName}?", s!"{brandName} reviews", s!"{brandName} products"]
  let _chunkRetrievalFrequency := calculateChunkRetrievalFrequency chunks
  let _embeddingRelevance ← calculateEmbeddingRelevanceDegraded chunks queries
  .error (.nameError "brand_name")

/-- `calculate_optimization_metrics_fast` (source lines 429-528) in the
degraded configuration: the try block always raises, so the except handler
(lines 498-528) returns the brand-derived fallback metrics, whatever the
content sample was. -/
def calculateOptimizationMetricsFastDegraded (md5 : Md5Oracle) (env : EngineEnv)
    (brandName : String) (contentSample : Option String) : OptimizationMetrics :=
  match fastTryDegraded md5 env brandName contentSample with
  | .ok m => m
  | .error _ => fallbackMetrics md5 brandName

theorem fastDegraded_eq_fallback (md5 : Md5Oracle) (env : EngineEnv) (brandName : String)
    (contentSample : Option String) :
    calculateOptimizationMetricsFastDegraded md5 env brandName contentSample
      = fallbackMetrics md5 brandName := rfl

/-- The documented ranges of every `OptimizationMetrics` field: floats in
[0, 1], `ai_citation_count` a nonnegative integer, `overall_score` in
[0, 1] and `performance_grade` on the fixed 11-symbol scale. -/
def metricsInRange (m : OptimizationMetrics) : Prop :=
  (0 ≤ m.chunk_retrieval_frequency ∧ m.chunk_retrieval_frequency ≤ 1) ∧
  (0 ≤ m.embedding_relevance_score ∧ m.embedding_relevance_score ≤ 1) ∧
  (0 ≤ m.attribution_rate ∧ m.attribution_rate ≤ 1) ∧
  0 ≤ m.ai_citation_count ∧
  (0 ≤ m.vector_index_presence_ratio ∧ m.vector_index_presence_ratio ≤ 1) ∧
  (0 ≤ m.retrieval_confidence_score ∧ m.retrieval_confidence_score ≤ 1) ∧
  (0 ≤ m.rrf_rank_contribution ∧ m.rrf_rank_contribution ≤ 1) ∧
  (0 ≤ m.llm_answer_coverage ∧ m.llm_answer_coverage ≤ 1) ∧
  (0 ≤ m.ai_model_crawl_success_rate ∧ m.ai_model_crawl_success_rate ≤ 1) ∧
  (0 ≤ m.semantic_density_score ∧ m.semantic_density_score ≤ 1) ∧
  (0 ≤ m.zero_click_surface_presence ∧ m.zero_click_surface_presence ≤ 1) ∧
  (0 ≤ m.machine_validated_authority ∧ m.machine_validated_authority ≤ 1) ∧
  (0 ≤ m.brand_strength_score ∧ m.brand_strength_score ≤ 1) ∧
  (0 ≤ m.brand_visibility_potential ∧ m.brand_visibility_potential ≤ 1) ∧
  (0 ≤ m.content_quality_score ∧ m.content_quality_score ≤ 1) ∧
  (0 ≤ m.industry_relevance ∧ m.industry_relevance ≤ 1) ∧
  (0 ≤ m.amanda_crast_score ∧ m.amanda_crast_score ≤ 1) ∧
  (0 ≤ m.overall_score ∧ m.overall_score ≤ 1) ∧
  m.performance_grade ∈ gradeScale

theorem estimateCoverage_nonneg (md5 : Md5Oracle) (b : String) :
    0 ≤ estimateCoverageFromBrandName md5 b := by
  rw [estimateCoverageFromBrandName]; exact clamp01_nonneg _

theorem estimateCoverage_le_one (md5 : Md5Oracle) (b : String) :
    estimateCoverageFromBrandName md5 b ≤ 1 := by
  rw [estimateCoverageFromBrandName]; exact clamp01_le_one _

theorem brandLengthFactor_nonneg (b : String) : 0 ≤ brandLengthFactor b := by
  rw [brandLengthFactor]
  exact le_pyMin (by norm_num) (by positivity)

theorem brandLengthFactor_le_one (b : String) : brandLengthFactor b ≤ 1 :=
  pyMin_le_left _ _

theorem brandComplexity_nonneg (b : String) : 0 ≤ brandComplexity b := by
  rw [brandComplexity]; positivity

/-- C2 (amended): for every brand name whose lowercased character set has
at most 26 distinct characters, every field of the metrics produced by the
degraded `calculate_optimization_metrics_fast` (its brand-derived fallback
branch) lies in its documented range, and the grade is on the 11-symbol
scale. -/
theorem claim_C2_metrics_ranges_amended (md5 : Md5Oracle) (env : EngineEnv)
    (brandName : String) (contentSample : Option String)
    (hdist : (pyLower brandName).data.eraseDups.length ≤ 26) :
    metricsInRange (calculateOptimizationMetricsFastDegraded md5 env brandName contentSample) := by
  rw [fastDegraded_eq_fallback]
  simp only [metricsInRange, fallbackMetrics, fallbackCore]
  have hlf0 := brandLengthFactor_nonneg brandName
  have hlf1 := brandLengthFactor_le_one brandName
  have hc0 := brandComplexity_nonneg brandName
  have hc1 : brandComplexity brandName ≤ 1 := by
    rw [brandComplexity, div_le_one (by norm_num)]
    exact_mod_cast hdist
  have hs0 := calculateBrandStrengthScore_nonneg md5 brandName
  have hs1 := calculateBrandStrengthScore_le_one md5 brandName
  have hv0 := calculateVisibilityPotentialFallback_nonneg md5 brandName
  have hv1 := calculateVisibilityPotentialFallback_le_one md5 brandName
  have hcov0 := estimateCoverage_nonneg md5 brandName
  have hcov1 := estimateCoverage_le_one md5 brandName
  refine ⟨⟨by nlinarith, by nlinarith⟩, ⟨by nlinarith, by nlinarith⟩, ⟨hs0, hs1⟩,
    le_trans (by norm_num) (le_max_left 1 _), ⟨by nlinarith, by nlinarith⟩,
    ⟨by nlinarith, by nlinarith⟩, ⟨by nlinarith, by nlinarith⟩, ⟨hcov0, hcov1⟩,
    ⟨by nlinarith, by nlinarith⟩, ⟨by nlinarith, by nlinarith⟩, ⟨hv0, hv1⟩,
    ⟨by nlinarith, by nlinarith⟩, ⟨hs0, hs1⟩, ⟨hv0, hv1⟩,
    ⟨clamp01_nonneg _, clamp01_le_one _⟩, ⟨clamp01_nonneg _, clamp01_le_one _⟩,
    ⟨le_rfl, by norm_num⟩, ⟨getOverallScore_nonneg _, getOverallScore_le_one _⟩,
    gradeChain_mem_scale _⟩

/-- Witness for C2: the empty brand name has no distinct characters, and
the degraded fast path keeps every field in range there. -/
theorem claim_C2_metrics_ranges_amended_witness :
    (pyLower "").data.eraseDups.length ≤ 26 ∧
    metricsInRange (calculateOptimizationMetricsFastDegraded md5Zero envZero "" none) :=
  ⟨by decide, claim_C2_metrics_ranges_amended md5Zero envZero "" none (by decide)⟩

/-- Counterexample to C2 as stated: a brand name with 27 distinct
characters (here the alphabet plus one digit) drives the fallback
`retrieval_confidence_score` to 53/52 > 1, outside its documented range. -/
theorem claim_C2_metrics_ranges_counterexample :
    (calculateOptimizationMetricsFastDegraded md5Zero envZero
        "abcdefghijklmnopqrstuvwxyz1" none).retrieval_confidence_score = 53/52 ∧
    ¬ metricsInRange (calculateOptimizationMetricsFastDegraded md5Zero envZero
        "abcdefghijklmnopqrstuvwxyz1" none) := by
  have hval : (calculateOptimizationMetricsFastDegraded md5Zero envZero
      "abcdefghijklmnopqrstuvwxyz1" none).retrieval_confidence_score
        = (brandLengthFactor "abcdefghijklmnopqrstuvwxyz1"
            + brandComplexity "abcdefghijklmnopqrstuvwxyz1") / 2 := rfl
  have hlen : ("abcdefghijklmnopqrstuvwxyz1" : String).length = 27 := by decide
  have hdist : (pyLower "abcdefghijklmnopqrstuvwxyz1").data.eraseDups.length = 27 := by
    decide
  have hv : (calculateOptimizationMetricsFastDegraded md5Zero envZero
      "abcdefghijklmnopqrstuvwxyz1" none).retrieval_confidence_score = 53/52 := by
    rw [hval, brandLengthFactor, brandComplexity, hlen, hdist]
    norm_num [pyMin]
  refine ⟨hv, fun h => ?_⟩
  obtain ⟨_, _, _, _, _, ⟨_, hret⟩, _⟩ := h
  rw [hv] at hret
  norm_num at hret

/-- C9: in degraded mode (no content sample, no providers, no embedding
model) the fast metrics computation depends only on the brand name and the
fixed md5 digests — repeated calls under different ambient process states
(builtin-hash salt, NLTK tagger, clock) return identical
`OptimizationMetrics`, every field included. -/
theorem claim_C9_degraded_determinism :
    ∀ (md5 : Md5Oracle) (brandName : String) (env1 env2 : EngineEnv),
      calculateOptimizationMetricsFastDegraded md5 env1 brandName none
        = calculateOptimizationMetricsFastDegraded md5 env2 brandName none := by
  intro md5 brandName env1 env2
  rfl

/-! Semantic query generation (`_generate_semantic_queries`, source lines
1353-1445). -/

/-- The engine configuration options consumed by the modeled fragment
(`Engine(config)`, source lines 134-209 and 1362). -/
structure EngineConfig where
  llm_only_queries : Bool := false
  product_categories : List String := []

/-- The engine state relevant to the modeled fragment: which chat-completion
clients were configured (lines 137-191), whether real tracking was enabled
(lines 193-209), and the configuration. -/
structure Engine where
  config : EngineConfig
  anthropic_client : Bool
  openai_client : Bool
  perplexity_client : Bool := false
  use_real_tracking : Bool := false

/-- The engine with zero chat-completion providers configured and default
configuration: no valid API keys, `llm_only_queries` unset, and real
tracking disabled by the failing `tracking_manager` import (lines
197-209). -/
def degradedEngine : Engine :=
  { config := {}, anthropic_client := false, openai_client := false }

/-- The fields of `_research_brand_context` (source lines 1220-1265) that
`_generate_semantic_queries` consumes: `industry` and `brand_type` (lines
1366-1367); the remaining entries of the context dictionary only feed the
LLM prompt, which is part of the LLM oracle.  The surrounding try never
falls to its except branch: every helper it calls is total. -/
structure BrandContext where
  industry : String
  brand_type : String

/-- `_research_brand_context`, restricted to the consumed fields. -/
def researchBrandContext (brandName : String) (productCategories : List String) :
    BrandContext :=
  { industry := determineIndustryContext brandName productCategories
    brand_type := classifyBrandType brandName }

/-- The effective `_generate_industry_specific_queries` (the second
definition, source lines 2492-2502, overrides the first): a fixed template
table keyed by industry, defaulting to the general-business templates. -/
def generateIndustrySpecificQueries (brandName industry brandType : String) : List String :=
  if industry = "technology" then
    [s!"What does {brandName} do?", s!"Is {brandName} good for enterprises?",
      s!"{brandName} vs competitors"]
  else if industry = "automotive" then
    [s!"Are {brandName} cars reliable?", s!"{brandName} EV range",
      s!"{brandName} safety ratings"]
  else if industry = "healthcare" then
    [s!"Is {brandName} FDA approved?", s!"{brandName} clinical outcomes",
      s!"{brandName} patient safety"]
  else if industry = "finance" then
    [s!"Is {brandName} safe?", s!"{brandName} fees", s!"{brandName} returns"]
  else if industry = "real estate" then
    [s!"Is {brandName} trustworthy?", s!"{brandName} reviews", s!"{brandName} locations"]
  else if industry = "energy" then
    [s!"Is {brandName} renewable?", s!"{brandName} solar efficiency",
      s!"{brandName} battery technology"]
  else
    [s!"What is {brandName}?", s!"Is {brandName} good?", s!"{brandName} reviews"]

/-- The generic brand queries of lines 1408-1419. -/
def genericBrandQueries (brandName : String) : List String :=
  [s!"What is {brandName}?", s!"Tell me about {brandName}", s!"{brandName} pricing",
    s!"{brandName} reviews", s!"{brandName} features", s!"{brandName} benefits",
    s!"{brandName} vs competitors", s!"Best alternatives to {brandName}",
    s!"Is {brandName} good?", s!"How does {brandName} work?"]

/-- The category-expanded queries of lines 1422-1433. -/
def categoryQueries (brandName : String) (productCategories : List String) : List String :=
  ((productCategories.filter fun c => pyStrip c ≠ "").map fun cat =>
    let c := pyStrip cat
    [s!"{brandName} {c}", s!"{brandName} {c} pricing", s!"{brandName} {c} reviews",
      s!"{brandName} {c} vs alternatives", s!"Is {brandName} good for {c}?",
      s!"{brandName} {c} integration"]).join

/-- The intent-variant queries of lines 1435-1438. -/
def intentQueries (brandName : String) : List String :=
  ["setup", "tutorial", "docs", "comparison", "support", "limitations", "security",
    "API", "case studies"].map fun intent => s!"{brandName} {intent}"

/-- The shared post-processing of lines 1384 and 1443: strip, drop empties,
case-preserving de-duplication keeping first occurrences, cap at 60. -/
def dedupCap (queries : List String) : List String :=
  (((queries.map pyStrip).filter (· ≠ "")).eraseDups).take 60

/-- `_generate_semantic_queries` (source lines 1353-1445).  The external
`_llm_generate_queries` call is the oracle `llmGen` (its retries and
provider fan-out happen inside it); in strict mode its exceptions
propagate, in hybrid mode they are swallowed (lines 1390-1396). -/
def generateSemanticQueries (eng : Engine)
    (llmGen : String → List String → Except PyErr (List String))
    (brandName : String) (productCategories : List String) :
    Except PyErr (List String) :=
  let llmOnly := eng.config.llm_only_queries
  let ctx := researchBrandContext brandName productCategories
  let industry := pyLower (if ctx.industry = "" then "general business" else ctx.industry)
  let brandType := ctx.brand_type
  if llmOnly then
    if !(eng.anthropic_client || eng.openai_client) then
      .error (.runtimeError "LLM query generation requires configured Anthropic or OpenAI client")
    else
      match llmGen brandName productCategories with
      | .error e => .error e
      | .ok llmQueries =>
        if llmQueries = [] then
          .error (.runtimeError "LLM query generation returned no queries")
        else .ok (dedupCap llmQueries)
  else
    let queries :=
      if eng.anthropic_client || eng.openai_client then
        match llmGen brandName productCategories with
        | .ok l => l
        | .error _ => []
      else []
    let queries :=
      if queries = [] then
        generateIndustrySpecificQueries brandName industry brandType
          ++ genericBrandQueries brandName
          ++ categoryQueries brandName productCategories
          ++ intentQueries brandName
      else queries
    .ok (dedupCap queries)

/-- C6: with `llm_only_queries = true`, query generation raises exactly
when no chat-completion client is configured, when the LLM oracle itself
fails, or when it returns no queries after its retries; and these are the
only inputs on which `_generate_semantic_queries` raises at all — hybrid
mode always falls back to heuristics instead. -/
theorem claim_C6_strict_mode_raises :
    ∀ (eng : Engine) (llmGen : String → List String → Except PyErr (List String))
      (brandName : String) (productCategories : List String) (e : PyErr),
      generateSemanticQueries eng llmGen brandName productCategories = .error e ↔
        (eng.config.llm_only_queries = true ∧
          (((eng.anthropic_client || eng.openai_client) = false ∧
              e = .runtimeError
                "LLM query generation requires configured Anthropic or OpenAI client") ∨
            ((eng.anthropic_client || eng.openai_client) = true ∧
              (llmGen brandName productCategories = .error e ∨
                (llmGen brandName productCategories = .ok [] ∧
                  e = .runtimeError "LLM query generation returned no queries"))))) := by
  intro eng llmGen brandName productCategories e
  rw [generateSemanticQueries]
  rcases hll : eng.config.llm_only_queries with _ | _
  · simp [hll]
  · simp only [hll, if_true]
    rcases hcl : eng.anthropic_client || eng.openai_client with _ | _
    · simp [eq_comm]
    · simp only [Bool.not_true, Bool.false_eq_true, if_false]
      rcases hgen : llmGen brandName productCategories with e' | l
      · simp [hgen]
      · rcases hl : l with _ | ⟨q, t⟩
        · simp [hgen, hl, eq_comm]
        · simp [hgen, hl]

/-- Witness for C6: strict mode with no providers raises the configuration
error. -/
theorem claim_C6_strict_mode_raises_witness :
    generateSemanticQueries
        { config := { llm_only_queries := true }, anthropic_client := false,
          openai_client := false }
        (fun _ _ => .ok []) "Nova Robotics" ["robotics"]
      = .error (.runtimeError
          "LLM query generation requires configured Anthropic or OpenAI client") :=
  (claim_C6_strict_mode_raises
      { config := { llm_only_queries := true }, anthropic_client := false,
        openai_client := false }
      (fun _ _ => .ok []) "Nova Robotics" ["robotics"] _).mpr
    ⟨rfl, Or.inl ⟨rfl, rfl⟩⟩

/-! The simulated query tester and the public analysis entry points. -/

/-- One record of the `responses` list built at line 2576. -/
structure SimResponse where
  platform : String
  query : String
  brand_mentioned : Bool
  position : Option ℚ

/-- One per-query record of `_create_simulated_query_results` (source
lines 2563-2577). -/
structure SimQueryRecord where
  query : String
  mentioned : Bool
  mention_count : ℕ
  total_tests : ℕ
  success_rate : ℚ
  avg_position : Option ℚ
  brand_mentioned : Bool
  position : Option ℚ
  optimization_suggestions : List String
  responses : List SimResponse

/-- One per-platform entry of the `platform_breakdown` dictionary. -/
structure PlatformStat where
  responses : ℕ
  mentions : ℕ

/-- The `summary_metrics` dictionary; `overall_score` and
`platforms_tested` are present only in the shapes that add them. -/
structure SummaryMetrics where
  total_mentions : ℕ
  total_tests : ℕ
  avg_position : ℚ
  overall_score : Option ℚ := none
  platforms_tested : Option (List String) := none

/-- The result dictionary of `_create_simulated_query_results` (source
lines 2583-2595). -/
structure SimulatedQueryResults where
  total_queries_generated : ℕ
  tested_queries : ℕ
  success_rate : ℚ
  brand_mentions : ℕ
  all_queries : List SimQueryRecord
  platform_breakdown : List (String × PlatformStat)
  summary_metrics : SummaryMetrics

/-- `_create_simulated_query_results` (source lines 2551-2595): for every
query simulate the response `"{brand} is known for innovation. {query}"`,
run mention detection and the position heuristic on it, and aggregate. -/
def createSimulatedQueryResults (md5 : Md5Oracle) (brandName : String)
    (queries : List String) : SimulatedQueryResults :=
  let results := queries.map fun q =>
    let sampleResp := s!"{brandName} is known for innovation. {q}"
    let mentioned := detectBrandMention brandName sampleResp
    let pos := calculateResponsePosition md5 brandName sampleResp mentioned
    let firstWord := (pySplitWs q).headD ""
    ({ query := q
       mentioned := mentioned
       mention_count := if mentioned then 1 else 0
       total_tests := 1
       success_rate := if mentioned then 1 else 0
       avg_position := pos
       brand_mentioned := mentioned
       position := pos
       optimization_suggestions :=
         [s!"Optimize content for '{q}' query",
           if mentioned then
             s!"Improve brand visibility in {firstWord} context"
           else s!"Add {brandName} mentions for '{q}'"]
       responses := [{ platform := "simulated", query := q, brand_mentioned := mentioned,
                       position := pos }] } : SimQueryRecord)
  let totalMentions := (results.filter (·.mentioned)).length
  let positions := results.filterMap fun r => if r.mentioned then r.position else none
  let avgPosition : ℚ :=
    if positions.isEmpty then 5 else positions.sum / (positions.length : ℚ)
  { total_queries_generated := queries.length
    tested_queries := results.length
    success_rate := (totalMentions : ℚ) / ((max 1 results.length : ℕ) : ℚ)
    brand_mentions := totalMentions
    all_queries := results
    platform_breakdown := [("simulated", ⟨results.length, totalMentions⟩)]
    summary_metrics :=
      { total_mentions := totalMentions, total_tests := results.length,
        avg_position := avgPosition } }

/-- The effective `_test_queries_across_platforms` (the second definition,
source lines 2607-2615, overrides the one at 1766): repackage the
simulated results. -/
structure PlatformTestResults where
  combined_query_results : List SimQueryRecord
  platform_stats : List (String × PlatformStat)
  platforms_tested : List String
  intent_insights : List (String × ℚ)

/-- Source lines 2607-2615. -/
def testQueriesAcrossPlatforms (md5 : Md5Oracle) (brandName : String)
    (queries : List String) : PlatformTestResults :=
  let sim := createSimulatedQueryResults md5 brandName queries
  { combined_query_results := sim.all_queries
    platform_stats := sim.platform_breakdown
    platforms_tested := sim.platform_breakdown.map Prod.fst
    intent_insights := [] }

/-- `_generate_intent_insights` (source lines 2617-2624). -/
def generateIntentInsights (brandName : String) (queries : List String) :
    List (String × ℚ) :=
  let informational :=
    (queries.filter fun q => ["what", "how", "why"].any (strContainsSub (pyLower q) ·)).length
  let navigational :=
    (queries.filter fun q => strContainsSub (pyLower q) (pyLower brandName)).length
  let transactional :=
    (queries.filter fun q => ["buy", "price", "cost"].any (strContainsSub (pyLower q) ·)).length
  let total := if informational + navigational + transactional = 0 then 1
    else informational + navigational + transactional
  [("informational", (informational : ℚ) / total),
    ("navigational", (navigational : ℚ) / total),
    ("transactional", (transactional : ℚ) / total)]

/-- The result dictionary of `analyze_queries` (source lines 365-411);
`error` is present only on the recovery path. -/
structure QueryAnalysisResult where
  total_queries_generated : ℕ
  tested_queries : ℕ
  success_rate : ℚ
  brand_mentions : ℕ
  all_queries : List SimQueryRecord
  platform_breakdown : List (String × PlatformStat)
  summary_metrics : SummaryMetrics
  intent_insights : List (String × ℚ)
  analysis_timestamp : String
  error : Option String := none

/-- The try block of `analyze_queries` (source lines 342-389). -/
def bodyAnalyzeQueries (eng : Engine) (env : EngineEnv) (md5 : Md5Oracle)
    (llmGen : String → List String → Except PyErr (List String))
    (brandName : String) (productCategories : List String) :
    Except PyErr QueryAnalysisResult := do
  let queries ← generateSemanticQueries eng llmGen brandName productCategories
  if eng.anthropic_client || eng.openai_client then
    let platformResults := testQueriesAcrossPlatforms md5 brandName queries
    let allQueries := platformResults.combined_query_results
    let totalMentions := (allQueries.filter (·.brand_mentioned)).length
    let totalTested := allQueries.length
    let successRate : ℚ := (totalMentions : ℚ) / ((max 1 totalTested : ℕ) : ℚ)
    let mentionedQueries := allQueries.filter (·.brand_mentioned)
    -- `q.get('avg_position', 5)` returns the stored value even when it is
    -- None, so a None position among mentioned queries would make the sum
    -- raise TypeError (recovered by the outer except)
    let avgPosition ←
      (if mentionedQueries.isEmpty then Except.ok (5 : ℚ)
        else if mentionedQueries.any fun r => r.avg_position.isNone then
          Except.error (.typeError
            "unsupported operand type(s) for +: 'int' and 'NoneType'")
        else Except.ok
          ((mentionedQueries.filterMap (·.avg_position)).sum /
            (mentionedQueries.length : ℚ)))
    Except.ok
      { total_queries_generated := queries.length
        tested_queries := totalTested
        success_rate := successRate
        brand_mentions := totalMentions
        all_queries := allQueries
        platform_breakdown := platformResults.platform_stats
        summary_metrics :=
          { total_mentions := totalMentions, total_tests := totalTested,
            avg_position := avgPosition, overall_score := some successRate,
            platforms_tested := some platformResults.platforms_tested }
        intent_insights := platformResults.intent_insights
        analysis_timestamp := env.now }
  else
    let sim := createSimulatedQueryResults md5 brandName queries
    Except.ok
      { total_queries_generated := sim.total_queries_generated
        tested_queries := sim.tested_queries
        success_rate := sim.success_rate
        brand_mentions := sim.brand_mentions
        all_queries := sim.all_queries
        platform_breakdown := sim.platform_breakdown
        summary_metrics := sim.summary_metrics
        intent_insights := generateIntentInsights brandName queries
        analysis_timestamp := env.now }

/-- The recovery dictionary of `analyze_queries` (source lines 393-411):
fully shaped, counts zeroed, `error` carrying `str(e)`. -/
def errorAnalysisResult (e : PyErr) (now : String) : QueryAnalysisResult :=
  { total_queries_generated := 0
    tested_queries := 0
    success_rate := 0
    brand_mentions := 0
    all_queries := []
    platform_breakdown := []
    summary_metrics :=
      { total_mentions := 0, total_tests := 0, avg_position := 5,
        overall_score := some 0, platforms_tested := some [] }
    intent_insights := []
    analysis_timestamp := now
    error := some (pyErrMessage e) }

/-- `analyze_queries` (source lines 340-411): the try block with the
catch-all recovery handler. -/
def analyzeQueries (eng : Engine) (env : EngineEnv) (md5 : Md5Oracle)
    (llmGen : String → List String → Except PyErr (List String))
    (brandName : String) (productCategories : List String) : QueryAnalysisResult :=
  match bodyAnalyzeQueries eng env md5 llmGen brandName productCategories with
  | .ok r => r
  | .error e => errorAnalysisResult e env.now

/-- C10: `analyze_queries` is total — every internal failure of its body,
including the RuntimeError of strict llm-only query generation, is caught
and turned into the fully-shaped zeroed result carrying the error message;
in particular strict mode with no providers yields exactly that record. -/
theorem claim_C10_analyze_queries_total :
    (∀ (eng : Engine) (env : EngineEnv) (md5 : Md5Oracle)
      (llmGen : String → List String → Except PyErr (List String))
      (brandName : String) (productCategories : List String) (e : PyErr),
      bodyAnalyzeQueries eng env md5 llmGen brandName productCategories = .error e →
      analyzeQueries eng env md5 llmGen brandName productCategories
        = errorAnalysisResult e env.now) ∧
    (∀ (eng : Engine) (env : EngineEnv) (md5 : Md5Oracle)
      (llmGen : String → List String → Except PyErr (List String))
      (brandName : String) (productCategories : List String),
      eng.config.llm_only_queries = true →
      eng.anthropic_client = false → eng.openai_client = false →
      analyzeQueries eng env md5 llmGen brandName productCategories
        = errorAnalysisResult
            (.runtimeError
              "LLM query generation requires configured Anthropic or OpenAI client")
            env.now) := by
  constructor
  · intro eng env md5 llmGen brandName productCategories e h
    rw [analyzeQueries, h]
  · intro eng env md5 llmGen brandName productCategories hll ha ho
    have hgen : generateSemanticQueries eng llmGen brandName productCategories
        = .error (.runtimeError
            "LLM query generation requires configured Anthropic or OpenAI client") := by
      rw [generateSemanticQueries]
      simp [hll, ha, ho]
    rw [analyzeQueries, bodyAnalyzeQueries, hgen]
    rfl

/-- Witness for C10: a strict-mode engine with no providers returns the
shaped error record instead of propagating. -/
theorem claim_C10_analyze_queries_total_witness :
    analyzeQueries
        { config := { llm_only_queries := true }, anthropic_client := false,
          openai_client := false }
        envZero md5Zero (fun _ _ => .ok []) "Nova Robotics" ["robotics"]
      = errorAnalysisResult
          (.runtimeError
            "LLM query generation requires configured Anthropic or OpenAI client") "" :=
  claim_C10_analyze_queries_total.2
    { config := { llm_only_queries := true }, anthropic_client := false,
      openai_client := false }
    envZero md5Zero (fun _ _ => .ok []) "Nova Robotics" ["robotics"] rfl rfl rfl

/-! `analyze_brand_comprehensive` (source lines 213-323) and its
`analyze_brand` alias (lines 327-338), for an engine with zero
chat-completion providers (the claim's configuration): with no clients,
the query-testing branch of lines 229-283 is skipped for the simulated
results of line 288. -/

/-- `performance_summary` (source lines 290-295). -/
structure PerformanceSummary where
  overall_score : ℚ
  performance_grade : String
  strengths : List String
  weaknesses : List String

/-- The `metadata` dictionary (source lines 310-318). -/
structure ReportMetadata where
  categories_analyzed : List String
  has_website : Bool
  has_content_sample : Bool
  competitors_included : ℕ
  total_queries_generated : ℕ
  analysis_method : String
  llm_apis_used : Bool

/-- The report dictionary of lines 300-319. -/
structure Report where
  brand_name : String
  analysis_date : String
  optimization_metrics : OptimizationMetrics
  performance_summary : PerformanceSummary
  priority_recommendations : List String
  semantic_queries : List String
  query_analysis : SimulatedQueryResults
  implementation_roadmap : List String
  competitors_overview : List String
  metadata : ReportMetadata

/-- Calling a method that is defined nowhere in the class raises
`AttributeError`. -/
def missingAttr (α : Type) (name : String) : Except PyErr α := .error (.attributeError name)

/-- Reading a local variable that was never assigned raises `NameError`. -/
def unboundLocal (α : Type) (name : String) : Except PyErr α := .error (.nameError name)

/-- The try block of `analyze_brand_comprehensive` (source lines 218-319)
with no providers configured.  After metrics, queries, the simulated query
analysis and the grade are computed, building `performance_summary` calls
`self._identify_strengths` (line 293) — a method defined nowhere in the
class — so `AttributeError` is raised there; the subsequent
`_identify_weaknesses` (line 294), the never-assigned local
`recommendations` (lines 298, 305) and `_generate_implementation_roadmap`
(line 298) are behind it on the same doomed path. -/
def bodyAnalyzeBrandComprehensive (eng : Engine) (env : EngineEnv) (md5 : Md5Oracle)
    (llmGen : String → List String → Except PyErr (List String))
    (brandName : String) (websiteUrl : Option String)
    (productCategories : Option (List String)) (contentSample : Option String)
    (competitorNames : Option (List String)) : Except PyErr Report := do
  let metrics := calculateOptimizationMetricsFastDegraded md5 env brandName contentSample
  let queries ← generateSemanticQueries eng llmGen brandName (productCategories.getD [])
  let queryAnalysisResults := createSimulatedQueryResults md5 brandName queries
  let overall := getOverallScore metrics
  let grade := getConsistentGrade md5 brandName overall
  let strengths ← missingAttr (List String) "_identify_strengths"
  let weaknesses ← missingAttr (List String) "_identify_weaknesses"
  let recommendations ← unboundLocal (List String) "recommendations"
  let roadmap ← missingAttr (List String) "_generate_implementation_roadmap"
  Except.ok
    { brand_name := brandName
      analysis_date := env.now
      optimization_metrics := metrics
      performance_summary :=
        { overall_score := overall, performance_grade := grade,
          strengths := strengths, weaknesses := weaknesses }
      priority_recommendations := recommendations
      semantic_queries := queries
      query_analysis := queryAnalysisResults
      implementation_roadmap := roadmap
      competitors_overview := competitorNames.getD []
      metadata :=
        { categories_analyzed := productCategories.getD []
          has_website := websiteUrl.getD "" != ""
          has_content_sample := contentSample.getD "" != ""
          competitors_included := (competitorNames.getD []).length
          total_queries_generated := queries.length
          analysis_method := if eng.use_real_tracking then "real_tracking" else "simulated"
          llm_apis_used := eng.anthropic_client || eng.openai_client } }

/-- `analyze_brand_comprehensive` (source lines 213-323): the except
handler at lines 321-323 only logs and re-raises. -/
def analyzeBrandComprehensive (eng : Engine) (env : EngineEnv) (md5 : Md5Oracle)
    (llmGen : String → List String → Except PyErr (List String))
    (brandName : String) (websiteUrl : Option String)
    (productCategories : Option (List String)) (contentSample : Option String)
    (competitorNames : Option (List String)) : Except PyErr Report :=
  match bodyAnalyzeBrandComprehensive eng env md5 llmGen brandName websiteUrl
      productCategories contentSample competitorNames with
  | .ok r => .ok r
  | .error e => .error e

/-- `analyze_brand`, the public alias (source lines 327-338). -/
def analyzeBrand (eng : Engine) (env : EngineEnv) (md5 : Md5Oracle)
    (llmGen : String → List String → Except PyErr (List String))
    (brandName : String) (websiteUrl : Option String)
    (productCategories : Option (List String)) (contentSample : Option String)
    (competitorNames : Option (List String)) : Except PyErr Report :=
  analyzeBrandComprehensive eng env md5 llmGen brandName websiteUrl productCategories
    contentSample competitorNames

/-- C1 (evaluation at the claimed call): with zero providers configured,
`analyze("Nova Robotics", content_sample=..., product_categories=
["robotics"])` does not return a report — it raises
`AttributeError: '_identify_strengths'` from line 293, and the except
handler re-raises it, for every ambient state, hash oracle and LLM
oracle. -/
theorem claim_C1_analyze_raises :
    ∀ (env : EngineEnv) (md5 : Md5Oracle)
      (llmGen : String → List String → Except PyErr (List String)),
      analyzeBrand degradedEngine env md5 llmGen "Nova Robotics" none (some ["robotics"])
          (some "Nova Robotics builds warehouse automation arms.") none
        = .error (.attributeError "_identify_strengths") := by
  intro env md5 llmGen
  rfl

end AIOpt
